import Mathlib

/-!
Shallow embedding of `src/member_app.py`, a single-file Flask membership
app ("옥탑밭 회원관리"), together with theorems settling the claims about
its expiry calculator, query filter builder, creation/deletion handlers
and CSV export.

Modelling conventions:
* Calendar dates are proleptic-Gregorian ordinals (`Int`), exactly the
  value of Python's `date.toordinal()`; `date + timedelta(days=n)` is
  ordinal addition and date comparison is ordinal comparison.
* Optional columns / optional request parameters are `Option`.
* Python string operations used by the app (`strip`, `lower`, `replace`,
  `str.split`-like parsing) are re-implemented over `List Char` so that
  everything reduces by `decide` / `rfl`.
* SQLAlchemy query filters are embedded as a per-row `Bool` predicate with
  SQL three-valued logic resolved the way SQLite resolves it for the
  expressions that occur in the code (a NULL comparison never keeps a row).
* `col.ilike(pat)` compiles (on SQLite) to `lower(col) LIKE lower(pat)`;
  SQL `LIKE` semantics (`%` and `_` wildcards, everything else literal,
  ASCII-only case folding — SQLite's `lower`) are embedded in `likeMatch`.
-/

namespace MemberApp

/-! ## Python / SQLite string primitives -/

/-- SQLite `lower()`: ASCII-only case folding of one character. -/
def lowerChar (c : Char) : Char :=
  if 'A' ≤ c ∧ c ≤ 'Z' then Char.ofNat (c.toNat + 32) else c

/-- SQLite `lower()` over a whole string. -/
def lowerStr (s : String) : String := String.mk (s.data.map lowerChar)

/-- Whitespace characters removed by Python `str.strip()` (ASCII part). -/
def isPySpace (c : Char) : Bool :=
  c == ' ' || c == '\t' || c == '\n' || c == '\r' || c == '\x0b' || c == '\x0c'

/-- Python `str.strip()`: drop leading and trailing whitespace. -/
def strip (s : String) : String :=
  String.mk (((s.data.dropWhile isPySpace).reverse.dropWhile isPySpace).reverse)

/-- Python `(x or "").strip()` applied to an optional request/form value:
this is how every text parameter is normalised in the app. -/
def stripOpt (o : Option String) : String := strip (o.getD "")

/-- Python `x or ""` for an optional column value (used by the CSV export). -/
def orEmpty (o : Option String) : String := o.getD ""

/-- Python `x or None` for a stripped form string: blank becomes NULL. -/
def noneIfEmpty (s : String) : Option String := if s == "" then none else some s

/-! ## Date handling (`datetime.date` as proleptic-Gregorian ordinals) -/

/-- Gregorian leap-year test, as used by `datetime`. -/
def isLeap (y : Nat) : Bool := (y % 4 == 0 && y % 100 != 0) || y % 400 == 0

/-- Length of month `m` (1-based) in year `y`, as used by `datetime`. -/
def daysInMonth (y m : Nat) : Nat :=
  if m == 2 then (if isLeap y then 29 else 28)
  else if m == 4 || m == 6 || m == 9 || m == 11 then 30
  else 31

/-- Days in year `y` strictly before month `m` (1-based). -/
def daysBeforeMonth (y m : Nat) : Nat :=
  ((List.range (m - 1)).map (fun i => daysInMonth y (i + 1))).sum

/-- Python `date(y, m, d).toordinal()` (day 1 = 0001-01-01). -/
def toOrdinal (y m d : Nat) : Int :=
  ((y - 1) * 365 + (y - 1) / 4 - (y - 1) / 100 + (y - 1) / 400
    + daysBeforeMonth y m + d : Nat)

/-- Month lookup for `ord2ymd`: walk the months of year `y` consuming a
0-based day-of-year remainder; `fuel` starts at 12. -/
def findMonth (y : Nat) : Nat → Nat → Nat → Nat × Nat
  | 0, m, rem => (m, rem + 1)
  | fuel + 1, m, rem =>
    if rem < daysInMonth y m then (m, rem + 1)
    else findMonth y fuel (m + 1) (rem - daysInMonth y m)

/-- Python `date.fromordinal` decomposition (`_ord2ymd`): ordinal back to
(year, month, day). Only ever evaluated on concrete ordinals. -/
def ord2ymd (n : Int) : Nat × Nat × Nat :=
  let n0 := (n - 1).toNat
  let n400 := n0 / 146097
  let r1 := n0 % 146097
  let n100 := r1 / 36524
  let r2 := r1 % 36524
  let n4 := r2 / 1461
  let r3 := r2 % 1461
  let n1 := r3 / 365
  let r4 := r3 % 365
  let year := n400 * 400 + n100 * 100 + n4 * 4 + n1 + 1
  if n1 == 4 || n100 == 4 then (year - 1, 12, 31)
  else (year, (findMonth year 12 1 r4).1, (findMonth year 12 1 r4).2)

/-- Left-pad a decimal rendering with zeros. -/
def padZero (width : Nat) (s : String) : String :=
  String.mk (List.replicate (width - s.length) '0' ++ s.data)

/-- Python `date.isoformat()`: `YYYY-MM-DD`. -/
def isoformat (d : Int) : String :=
  padZero 4 (toString (ord2ymd d).1) ++ "-" ++ padZero 2 (toString (ord2ymd d).2.1)
    ++ "-" ++ padZero 2 (toString (ord2ymd d).2.2)

/-! ## `parse_date` -/

/-- Split a character list at every dash, keeping empty pieces (the shape
`strptime("%Y-%m-%d")` imposes: exactly three dash-separated groups). -/
def splitOnDash : List Char → List (List Char)
  | [] => [[]]
  | c :: cs =>
    if c = '-' then [] :: splitOnDash cs
    else
      match splitOnDash cs with
      | [] => [[c]]
      | p :: ps => (c :: p) :: ps

/-- Value of a list of decimal digit characters. -/
def digitsToNat (l : List Char) : Nat :=
  l.foldl (fun a c => a * 10 + (c.toNat - 48)) 0

/-- Nonempty and all decimal digits. -/
def allDigits (l : List Char) : Bool := !l.isEmpty && l.all Char.isDigit

/-- Embedding of `parse_date` (member_app.py:57): `None`/empty input gives
`None`; otherwise `datetime.strptime(s, "%Y-%m-%d").date()` with every
exception mapped to `None`. CPython's `strptime` accepts exactly four
digits for `%Y` and one or two digits for `%m` / `%d` (values 1–12 and
1–31 respectively, enforced by its regexes), the whole string must be
consumed, and `date` construction then checks the day against the month
length — so the accepted strings are exactly the dash-separated digit
triples below that name a real calendar date. -/
def parse_date (s : Option String) : Option Int :=
  match s with
  | none => none
  | some str =>
    if str = "" then none
    else
      match splitOnDash str.data with
      | [ys, ms, ds] =>
        if allDigits ys && ys.length == 4
            && allDigits ms && ms.length ≤ 2
            && allDigits ds && ds.length ≤ 2 then
          let y := digitsToNat ys
          let m := digitsToNat ms
          let d := digitsToNat ds
          if 1 ≤ y && 1 ≤ m && m ≤ 12 && 1 ≤ d && d ≤ daysInMonth y m then
            some (toOrdinal y m d)
          else none
        else none
      | _ => none

/-! ## Expiry calculator -/

/-- Embedding of `DAYS_MAP` (member_app.py:55): 월간 = Monthly, 분기 =
Quarterly, 연간 = Yearly, 상자텃밭만 = GardenBoxOnly. -/
def DAYS_MAP (membership_type : String) : Option Nat :=
  if membership_type = "월간" then some 30
  else if membership_type = "분기" then some 90
  else if membership_type = "연간" then some 365
  else if membership_type = "상자텃밭만" then some 14
  else none

/-- Embedding of `auto_expiry` (member_app.py:65): absent join date gives
absent; otherwise `join_date + timedelta(days=days) if days else None`
(the `if days` is Python truthiness, hence the explicit zero test). -/
def auto_expiry (join_date : Option Int) (membership_type : String) : Option Int :=
  match join_date with
  | none => none
  | some jd =>
    match DAYS_MAP membership_type with
    | some days => if days == 0 then none else some (jd + (days : Int))
    | none => none

/-! ## Data model -/

/-- A row of the `member` table (member_app.py:37). Dates are ordinals;
`created_at` / `updated_at` are timestamps that nothing in the app ever
inspects beyond serializing them, so they are carried in serialized form. -/
structure Member where
  id : Nat
  name : String
  contact : Option String
  membership_type : String
  join_date : Int
  expiry_date : Option Int
  source : Option String
  note : Option String
  created_at : Option String
  updated_at : Option String
deriving DecidableEq

/-- The query-string parameters read by `apply_filters` (member_app.py:243);
a missing parameter is `none` (`request.args.get` returns `None`). -/
structure FilterArgs where
  q : Option String := none
  membership_type : Option String := none
  expired : Option String := none
  join_from : Option String := none
  join_to : Option String := none
  exp_from : Option String := none
  exp_to : Option String := none
deriving DecidableEq

/-! ## SQL LIKE / ilike -/

/-- SQL `LIKE` pattern matching (no ESCAPE clause, as in the app): `%`
matches any sequence, `_` any single character, anything else itself.
Case sensitivity is handled by the caller (`ilike` lowers both sides). -/
def likeMatch : List Char → List Char → Bool
  | [], s => s.isEmpty
  | p :: ps, s =>
    if p = '%' then s.tails.any (fun t => likeMatch ps t)
    else if p = '_' then
      match s with
      | [] => false
      | _ :: s' => likeMatch ps s'
    else
      match s with
      | [] => false
      | c :: s' => p == c && likeMatch ps s'

/-- `col.ilike(pattern)` as compiled for SQLite:
`lower(col) LIKE lower(pattern)`. A NULL column never matches (SQL NULL
propagates and a non-true WHERE clause drops the row). -/
def ilike (col : Option String) (pattern : String) : Bool :=
  match col with
  | none => false
  | some s => likeMatch (lowerStr pattern).data (lowerStr s).data

/-! ## Query filter builder (`apply_filters`, member_app.py:243) -/

/-- Free-text criterion (member_app.py:252): `like = f"%{q}%"` matched
with OR across name, contact, source, note. -/
def textMatches (q : String) (m : Member) : Bool :=
  ilike (some m.name) ("%" ++ q ++ "%") || ilike m.contact ("%" ++ q ++ "%")
    || ilike m.source ("%" ++ q ++ "%") || ilike m.note ("%" ++ q ++ "%")

/-- Conjunct added by `if q:` — blank means no constraint. -/
def matchesQ (args : FilterArgs) (m : Member) : Bool :=
  stripOpt args.q == "" || textMatches (stripOpt args.q) m

/-- Conjunct added by `if mtype:` — exact equality on the stored class. -/
def matchesMtype (args : FilterArgs) (m : Member) : Bool :=
  stripOpt args.membership_type == "" || m.membership_type == stripOpt args.membership_type

/-- Conjunct added by the `expired` parameter (member_app.py:264):
`active` keeps NULL-or-future expiry, `expired` keeps non-NULL past
expiry, anything else is no constraint. -/
def matchesExpired (args : FilterArgs) (today : Int) (m : Member) : Bool :=
  if stripOpt args.expired == "active" then
    match m.expiry_date with
    | none => true
    | some d => decide (today ≤ d)
  else if stripOpt args.expired == "expired" then
    match m.expiry_date with
    | none => false
    | some d => decide (d < today)
  else true

/-- Conjunct `Member.join_date >= join_from` (absent bound: no constraint). -/
def matchesJoinFrom (args : FilterArgs) (m : Member) : Bool :=
  match parse_date args.join_from with
  | none => true
  | some b => decide (b ≤ m.join_date)

/-- Conjunct `Member.join_date <= join_to`. -/
def matchesJoinTo (args : FilterArgs) (m : Member) : Bool :=
  match parse_date args.join_to with
  | none => true
  | some b => decide (m.join_date ≤ b)

/-- Conjunct `Member.expiry_date >= exp_from`: a NULL expiry date never
satisfies a SQL comparison, so the row is dropped. -/
def matchesExpFrom (args : FilterArgs) (m : Member) : Bool :=
  match parse_date args.exp_from with
  | none => true
  | some b =>
    match m.expiry_date with
    | none => false
    | some d => decide (b ≤ d)

/-- Conjunct `Member.expiry_date <= exp_to` (NULL expiry drops the row). -/
def matchesExpTo (args : FilterArgs) (m : Member) : Bool :=
  match parse_date args.exp_to with
  | none => true
  | some b =>
    match m.expiry_date with
    | none => false
    | some d => decide (d ≤ b)

/-- The whole WHERE clause built by `apply_filters`: conjunction of the
conjuncts in source order. -/
def memberMatches (args : FilterArgs) (today : Int) (m : Member) : Bool :=
  matchesQ args m && matchesMtype args m && matchesExpired args today m
    && matchesJoinFrom args m && matchesJoinTo args m
    && matchesExpFrom args m && matchesExpTo args m

/-- `apply_filters` as a collection transformer: the rows surviving the
WHERE clause, order preserved. -/
def apply_filters (args : FilterArgs) (today : Int) (ms : List Member) : List Member :=
  ms.filter (memberMatches args today)

/-! ## Listing and export orderings -/

/-- `Member.id.desc()` comparison. -/
def idDesc (a b : Member) : Bool := decide (b.id ≤ a.id)

/-- `Member.id.asc()` comparison. -/
def idAsc (a b : Member) : Bool := decide (a.id ≤ b.id)

/-- Rows produced by the listing route (member_app.py:316):
`apply_filters(Member.query.order_by(Member.id.desc())).all()`. -/
def index_members (store : List Member) (args : FilterArgs) (today : Int) : List Member :=
  (store.mergeSort idDesc).filter (memberMatches args today)

/-- Rows produced by the export route (member_app.py:330):
`apply_filters(Member.query.order_by(Member.id.asc())).all()`. -/
def export_members (store : List Member) (args : FilterArgs) (today : Int) : List Member :=
  (store.mergeSort idAsc).filter (memberMatches args today)

/-! ## CSV export (member_app.py:328) -/

/-- Replace every occurrence of the two-character sequence backslash-n by
a space: this is what `(m.note or '').replace('\x5c\x5cn', ' ')` in the
source does — the Python literal denotes a backslash followed by the
letter n, not the newline character. -/
def replaceBackslashN : List Char → List Char
  | [] => []
  | '\\' :: 'n' :: cs => ' ' :: replaceBackslashN cs
  | c :: cs => c :: replaceBackslashN cs

/-- The note column as serialized by `export_csv` (member_app.py:344). -/
def noteField (note : Option String) : String :=
  String.mk (replaceBackslashN (orEmpty note).data)

/-- Python `csv.writer` (excel dialect, QUOTE_MINIMAL): a field is quoted
iff it contains a delimiter, quote, CR or LF. -/
def csvQuoteNeeded (s : String) : Bool :=
  s.data.any (fun c => c == ',' || c == '"' || c == '\n' || c == '\r')

/-- Double every quote character. -/
def escapeQuotes : List Char → List Char
  | [] => []
  | c :: cs => if c = '"' then '"' :: '"' :: escapeQuotes cs else c :: escapeQuotes cs

/-- One CSV field, minimally quoted. -/
def csvField (s : String) : String :=
  if csvQuoteNeeded s then "\"" ++ String.mk (escapeQuotes s.data) ++ "\"" else s

/-- Comma-join a list of encoded fields. -/
def joinComma : List String → String
  | [] => ""
  | [s] => s
  | s :: rest => s ++ "," ++ joinComma rest

/-- One CSV record: fields encoded, comma-joined, CRLF-terminated
(Python csv default `lineterminator='\r\n'`). -/
def csvRow (fields : List String) : String :=
  joinComma (fields.map csvField) ++ "\r\n"

/-- The header row written by `export_csv` (member_app.py:334). -/
def csvHeader : List String :=
  ["id", "name", "contact", "membership_type", "join_date", "expiry_date",
   "source", "note", "created_at", "updated_at"]

/-- The field list written for one member (member_app.py:336). -/
def memberCsvFields (m : Member) : List String :=
  [toString m.id, m.name, orEmpty m.contact, m.membership_type,
   isoformat m.join_date,
   (match m.expiry_date with
    | some e => isoformat e
    | none => ""),
   orEmpty m.source, noteField m.note, orEmpty m.created_at, orEmpty m.updated_at]

/-- The full CSV document returned by `export_csv`. -/
def export_csv (store : List Member) (args : FilterArgs) (today : Int) : String :=
  (csvRow csvHeader :: (export_members store args today).map (fun m => csvRow (memberCsvFields m))).foldr
    (fun a b => a ++ b) ""

/-! ## Creation route (`index` POST branch, member_app.py:286) -/

/-- Where a response redirects to. -/
inductive Redirect where
  | toIndex
  | toIndexArgs
deriving DecidableEq

/-- Outcome of the POST branch: the resulting store, the flashed notice
and the redirect target. -/
structure PostOutcome where
  store : List Member
  notice : String
  redirect : Redirect
deriving DecidableEq

/-- The form fields read by the POST branch; a missing field is `none`. -/
structure CreateForm where
  name : Option String := none
  contact : Option String := none
  membership_type : Option String := none
  join_date : Option String := none
  expiry_date : Option String := none
  source : Option String := none
  note : Option String := none
deriving DecidableEq

/-- Embedding of the POST branch of `index` (member_app.py:286): parse and
strip the form, derive the expiry (`expiry_input or auto_expiry(...)`),
reject with a flash and a bare redirect if name, membership or join date
is missing, otherwise insert the row (id from the autoincrement counter,
timestamps from the column defaults) and redirect keeping the query
string. -/
def index_post (store : List Member) (nextId : Nat) (now : String) (f : CreateForm) : PostOutcome :=
  let name := stripOpt f.name
  let contact := stripOpt f.contact
  let membership_type := stripOpt f.membership_type
  let join_date := parse_date f.join_date
  let expiry_input := parse_date f.expiry_date
  let expiry_date := expiry_input <|> auto_expiry join_date membership_type
  let source := stripOpt f.source
  let note := stripOpt f.note
  if name == "" || membership_type == "" || join_date == none then
    { store := store, notice := "이름, 멤버십, 가입일은 필수입니다.", redirect := .toIndex }
  else
    match join_date with
    | none =>
      { store := store, notice := "이름, 멤버십, 가입일은 필수입니다.", redirect := .toIndex }
    | some jd =>
      { store := store ++ [{
          id := nextId, name := name, contact := noneIfEmpty contact,
          membership_type := membership_type, join_date := jd,
          expiry_date := expiry_date, source := noneIfEmpty source,
          note := noneIfEmpty note, created_at := some now, updated_at := some now }],
        notice := "등록되었습니다.", redirect := .toIndexArgs }

/-! ## Deletion route (`delete_member`, member_app.py:320) -/

/-- Outcome of a delete request: `get_or_404` aborts the request with an
HTTP 404 when the id is absent, otherwise the row is deleted, a notice
flashed and the client redirected. -/
inductive DeleteOutcome where
  | notFound
  | deleted (notice : String) (redirect : Redirect)
deriving DecidableEq

/-- Embedding of `delete_member`. -/
def delete_member (store : List Member) (member_id : Nat) : List Member × DeleteOutcome :=
  if store.any (fun m => m.id == member_id) then
    (store.filter (fun m => !(m.id == member_id)), .deleted "삭제되었습니다." .toIndexArgs)
  else
    (store, .notFound)

/-! ## Spec-side notions used to state the claims -/

/-- Contiguous-sublist test over character lists. -/
def containsSub (needle hay : List Char) : Bool :=
  hay.tails.any (fun t => needle.isPrefixOf t)

/-- Case-insensitive substring containment (the spec's reading of the
text query), with the same ASCII case folding the database applies. -/
def containsCI (needle hay : String) : Bool :=
  containsSub (lowerStr needle).data (lowerStr hay).data

/-- Containment for an optional field: an absent field contains nothing. -/
def optContainsCI (needle : String) (o : Option String) : Bool :=
  match o with
  | none => false
  | some s => containsCI needle s

/-- True when the string contains no SQL LIKE wildcard character
(`%` or `_`). -/
def noWildcards (s : String) : Bool :=
  s.data.all (fun c => !(c == '%') && !(c == '_'))

/-! ## Concrete fixtures used by witnesses and counterexamples -/

/-- Fixture: a monthly member whose expiry date 2024-01-01 lies in the past
relative to a `today` of 2024-06-01. -/
def memA : Member :=
  { id := 1, name := "Kim", contact := none, membership_type := "월간",
    join_date := toOrdinal 2023 12 2, expiry_date := some (toOrdinal 2024 1 1),
    source := none, note := none, created_at := none, updated_at := none }

/-- Fixture: a member with no expiry date on record. -/
def memB : Member :=
  { id := 2, name := "Lee", contact := none, membership_type := "연간",
    join_date := toOrdinal 2024 1 1, expiry_date := none,
    source := none, note := none, created_at := none, updated_at := none }

/-- Fixture: a member whose note carries an embedded newline character. -/
def memC4 : Member :=
  { id := 1, name := "Kim", contact := none, membership_type := "월간",
    join_date := toOrdinal 2024 1 1, expiry_date := some (toOrdinal 2024 1 31),
    source := none, note := some "화분\n주의", created_at := none, updated_at := none }

/-- Fixture: a member none of whose text fields contains an underscore. -/
def memC8 : Member :=
  { id := 3, name := "Han", contact := none, membership_type := "분기",
    join_date := toOrdinal 2024 2 1, expiry_date := none,
    source := none, note := none, created_at := none, updated_at := none }

/-- Claim C1: with no explicit expiry, the expiry calculator returns the
join date plus 30 / 90 / 365 / 14 days for the four membership classes
(월간 = Monthly, 분기 = Quarterly, 연간 = Yearly, 상자텃밭만 = GardenBoxOnly),
returns absent for any class outside this table, and returns absent when
the join date is absent. -/
theorem c1_expiry_offsets (J : Int) (c : String)
    (h : c ∉ ["월간", "분기", "연간", "상자텃밭만"]) :
    auto_expiry (some J) "월간" = some (J + 30) ∧
    auto_expiry (some J) "분기" = some (J + 90) ∧
    auto_expiry (some J) "연간" = some (J + 365) ∧
    auto_expiry (some J) "상자텃밭만" = some (J + 14) ∧
    auto_expiry (some J) c = none ∧
    auto_expiry none c = none := by
  simp only [List.mem_cons, List.not_mem_nil, or_false, not_or] at h
  obtain ⟨h1, h2, h3, h4⟩ := h
  refine ⟨?_, ?_, ?_, ?_, ?_, rfl⟩ <;>
    simp [auto_expiry, DAYS_MAP, h1, h2, h3, h4]

/-- Witness for C1 at a concrete join date and a concrete unknown class. -/
theorem c1_expiry_offsets_witness :
    ("회원" ∉ ["월간", "분기", "연간", "상자텃밭만"]) ∧
    (auto_expiry (some 738886) "월간" = some (738886 + 30) ∧
     auto_expiry (some 738886) "분기" = some (738886 + 90) ∧
     auto_expiry (some 738886) "연간" = some (738886 + 365) ∧
     auto_expiry (some 738886) "상자텃밭만" = some (738886 + 14) ∧
     auto_expiry (some 738886) "회원" = none ∧
     auto_expiry none "회원" = none) :=
  ⟨by decide, c1_expiry_offsets 738886 "회원" (by decide)⟩

/-- Claim C5: a date bound whose string does not parse as a calendar date
is simply not applied — filtering with the malformed bound equals
filtering with that bound absent, for each of the four bounds. -/
theorem c5_malformed_date_bounds (args : FilterArgs) (today : Int)
    (store : List Member) (s : String)
    (h : parse_date (some s) = none) :
    apply_filters { args with join_from := some s } today store
        = apply_filters { args with join_from := none } today store ∧
    apply_filters { args with join_to := some s } today store
        = apply_filters { args with join_to := none } today store ∧
    apply_filters { args with exp_from := some s } today store
        = apply_filters { args with exp_from := none } today store ∧
    apply_filters { args with exp_to := some s } today store
        = apply_filters { args with exp_to := none } today store := by
  refine ⟨?_, ?_, ?_, ?_⟩ <;>
  · apply List.filter_congr
    intro m _
    simp [memberMatches, matchesQ, matchesMtype, matchesExpired,
      matchesJoinFrom, matchesJoinTo, matchesExpFrom, matchesExpTo, h,
      show parse_date none = none from rfl]

/-- Witness for C5: the malformed bound "2024-02-30" (not a real date) on
a one-member store. -/
theorem c5_malformed_date_bounds_witness :
    parse_date (some "2024-02-30") = none ∧
    (apply_filters { join_from := some "2024-02-30" } 0 [memA]
        = apply_filters { join_from := none } 0 [memA] ∧
     apply_filters { join_to := some "2024-02-30" } 0 [memA]
        = apply_filters { join_to := none } 0 [memA] ∧
     apply_filters { exp_from := some "2024-02-30" } 0 [memA]
        = apply_filters { exp_from := none } 0 [memA] ∧
     apply_filters { exp_to := some "2024-02-30" } 0 [memA]
        = apply_filters { exp_to := none } 0 [memA]) :=
  ⟨by decide, c5_malformed_date_bounds { } 0 [memA] "2024-02-30" (by decide)⟩

/-- Claim C6: a creation request missing name, membership class or join
date is rejected: the store is unchanged, the required-fields notice is
flashed, and the caller is redirected to the listing view. -/
theorem c6_create_validation (store : List Member) (nextId : Nat) (now : String)
    (f : CreateForm)
    (h : stripOpt f.name = "" ∨ stripOpt f.membership_type = ""
         ∨ parse_date f.join_date = none) :
    index_post store nextId now f =
      { store := store, notice := "이름, 멤버십, 가입일은 필수입니다.",
        redirect := .toIndex } := by
  unfold index_post
  rcases h with h | h | h <;> simp [h]

/-- Witness for C6: the empty form on a one-member store. -/
theorem c6_create_validation_witness :
    (stripOpt ({ } : CreateForm).name = "" ∨
     stripOpt ({ } : CreateForm).membership_type = "" ∨
     parse_date ({ } : CreateForm).join_date = none) ∧
    index_post [memA] 2 "2024-06-01T00:00:00" { } =
      { store := [memA], notice := "이름, 멤버십, 가입일은 필수입니다.",
        redirect := .toIndex } :=
  ⟨Or.inl (by decide), c6_create_validation [memA] 2 "2024-06-01T00:00:00" { } (Or.inl (by decide))⟩

/-- Claim C7: deleting an id not present in the store is a hard not-found
failure (HTTP 404 from `get_or_404`), not a silent no-op, and the store is
unchanged. -/
theorem c7_delete_not_found (store : List Member) (mid : Nat)
    (h : ∀ m ∈ store, m.id ≠ mid) :
    delete_member store mid = (store, .notFound) := by
  unfold delete_member
  have hany : store.any (fun m => m.id == mid) = false := by
    rw [List.any_eq_false]
    intro m hm
    simpa using h m hm
  simp [hany]

/-- Witness for C7: deleting id 5 from a store holding ids 1 and 2. -/
theorem c7_delete_not_found_witness :
    (∀ m ∈ [memA, memB], m.id ≠ 5) ∧
    delete_member [memA, memB] 5 = ([memA, memB], .notFound) :=
  ⟨by decide, c7_delete_not_found [memA, memB] 5 (by decide)⟩

/-- Claim C9: when the creation form carries an explicit expiry date E and
the write succeeds, the stored member's expiry date is exactly E,
whatever the join date and membership class are — derivation never
overrides explicit input. -/
theorem c9_explicit_expiry (store : List Member) (nextId : Nat) (now : String)
    (f : CreateForm) (E : Int)
    (hE : parse_date f.expiry_date = some E)
    (hn : stripOpt f.name ≠ "") (hm : stripOpt f.membership_type ≠ "")
    (hj : parse_date f.join_date ≠ none) :
    ∃ m : Member, (index_post store nextId now f).store = store ++ [m]
      ∧ m.expiry_date = some E := by
  unfold index_post
  obtain ⟨jd, hjd⟩ := Option.ne_none_iff_exists'.mp hj
  simp [hjd, hE, hn, hm]

/-- Witness for C9: explicit expiry 2023-12-31 beats the yearly-class
derivation from join date 2024-01-01. -/
theorem c9_explicit_expiry_witness :
    parse_date (some "2023-12-31") = some (toOrdinal 2023 12 31) ∧
    (∃ m : Member,
      (index_post [] 1 "now"
        { name := some "Kim", membership_type := some "연간",
          join_date := some "2024-01-01", expiry_date := some "2023-12-31" }).store
        = [] ++ [m] ∧ m.expiry_date = some (toOrdinal 2023 12 31)) :=
  ⟨by decide,
   c9_explicit_expiry [] 1 "now"
     { name := some "Kim", membership_type := some "연간",
       join_date := some "2024-01-01", expiry_date := some "2023-12-31" }
     (toOrdinal 2023 12 31) (by decide) (by decide) (by decide) (by decide)⟩

/-- Claim C2: the `active` expiry-state criterion keeps a member iff the
expiry date is absent or at least `today`; the `expired` criterion keeps a
member iff the expiry date is present and before `today`; consequently a
member with no expiry date passes `active`, is dropped by `expired`, and
is dropped whenever an `exp_from` or `exp_to` bound is actually applied. -/
theorem c2_expiry_state_filter (args : FilterArgs) (today : Int) (m : Member) :
    (stripOpt args.expired = "active" →
      (matchesExpired args today m = true ↔
        (m.expiry_date = none ∨ ∃ e, m.expiry_date = some e ∧ today ≤ e))) ∧
    (stripOpt args.expired = "expired" →
      (matchesExpired args today m = true ↔
        (∃ e, m.expiry_date = some e ∧ e < today))) ∧
    (m.expiry_date = none →
      (stripOpt args.expired = "active" → matchesExpired args today m = true) ∧
      (stripOpt args.expired = "expired" → memberMatches args today m = false) ∧
      (parse_date args.exp_from ≠ none → memberMatches args today m = false) ∧
      (parse_date args.exp_to ≠ none → memberMatches args today m = false)) := by
  refine ⟨?_, ?_, ?_⟩
  · intro h
    cases hd : m.expiry_date <;> simp [matchesExpired, h, hd]
  · intro h
    cases hd : m.expiry_date <;> simp [matchesExpired, h, hd]
  · intro he
    refine ⟨fun h => by simp [matchesExpired, h, he], fun h => ?_, fun h => ?_, fun h => ?_⟩
    · simp [memberMatches, matchesExpired, h, he]
    · obtain ⟨d, hd⟩ := Option.ne_none_iff_exists'.mp h
      simp [memberMatches, matchesExpFrom, hd, he]
    · obtain ⟨d, hd⟩ := Option.ne_none_iff_exists'.mp h
      simp [memberMatches, matchesExpTo, hd, he]

/-- Witness for C2 at the expired criterion and a member without expiry. -/
theorem c2_expiry_state_filter_witness :
    (stripOpt ({ expired := some "expired" } : FilterArgs).expired = "active" →
      (matchesExpired { expired := some "expired" } (toOrdinal 2024 6 1) memB = true ↔
        (memB.expiry_date = none ∨ ∃ e, memB.expiry_date = some e ∧ toOrdinal 2024 6 1 ≤ e))) ∧
    (stripOpt ({ expired := some "expired" } : FilterArgs).expired = "expired" →
      (matchesExpired { expired := some "expired" } (toOrdinal 2024 6 1) memB = true ↔
        (∃ e, memB.expiry_date = some e ∧ e < toOrdinal 2024 6 1))) ∧
    (memB.expiry_date = none →
      (stripOpt ({ expired := some "expired" } : FilterArgs).expired = "active" →
        matchesExpired { expired := some "expired" } (toOrdinal 2024 6 1) memB = true) ∧
      (stripOpt ({ expired := some "expired" } : FilterArgs).expired = "expired" →
        memberMatches { expired := some "expired" } (toOrdinal 2024 6 1) memB = false) ∧
      (parse_date ({ expired := some "expired" } : FilterArgs).exp_from ≠ none →
        memberMatches { expired := some "expired" } (toOrdinal 2024 6 1) memB = false) ∧
      (parse_date ({ expired := some "expired" } : FilterArgs).exp_to ≠ none →
        memberMatches { expired := some "expired" } (toOrdinal 2024 6 1) memB = false)) :=
  c2_expiry_state_filter { expired := some "expired" } (toOrdinal 2024 6 1) memB

/-- Claim C3 counterexample: the non-blank unknown membership class
"식물" is NOT treated as no constraint — filtering a one-member store by
it yields the empty list while dropping the criterion yields the member. -/
theorem c3_unknown_class_counterexample :
    stripOpt (some "식물") ≠ "" ∧
    "식물" ∉ ["월간", "분기", "연간", "상자텃밭만"] ∧
    apply_filters { membership_type := some "식물" } 0 [memA] = [] ∧
    apply_filters { membership_type := none } 0 [memA] = [memA] := by
  decide

/-- Claim C3 (amended): a non-blank membership-class criterion — whether
or not it belongs to the fixed class set — is applied as an exact
equality filter and never raises: a member is kept iff its stored class
equals the criterion and the remaining criteria keep it. -/
theorem c3_unknown_class_amended (args : FilterArgs) (today : Int) (m : Member)
    (h : stripOpt args.membership_type ≠ "") :
    memberMatches args today m = true ↔
      (m.membership_type = stripOpt args.membership_type ∧
        memberMatches { args with membership_type := none } today m = true) := by
  simp only [memberMatches, matchesMtype, Bool.and_eq_true, Bool.or_eq_true, beq_iff_eq]
  simp [h, show strip "" = "" from rfl, stripOpt]
  tauto

/-- Witness for C3's amended theorem at the unknown class "식물" and a
member actually carrying that class. -/
theorem c3_unknown_class_amended_witness :
    stripOpt ({ membership_type := some "식물" } : FilterArgs).membership_type ≠ "" ∧
    (memberMatches { membership_type := some "식물" } 0 memA = true ↔
      (memA.membership_type = stripOpt ({ membership_type := some "식물" } : FilterArgs).membership_type ∧
        memberMatches { ({ membership_type := some "식물" } : FilterArgs) with membership_type := none } 0 memA = true)) :=
  ⟨by decide, c3_unknown_class_amended { membership_type := some "식물" } 0 memA (by decide)⟩

/-- Claim C4 (code bug, evaluated): the export serializes a note holding a
real newline character unchanged — `replace` targets the two-character
sequence backslash-n, so the newline survives into the (quoted) CSV field
and the record spans two physical lines, while a literal backslash-n in a
note is what actually gets collapsed to a space. -/
theorem c4_csv_newline_eval :
    memC4.note = some "화분\n주의" ∧
    noteField memC4.note = "화분\n주의" ∧
    noteField (some "화분\\n주의") = "화분 주의" ∧
    memberCsvFields memC4 =
      ["1", "Kim", "", "월간", "2024-01-01", "2024-01-31", "", "화분\n주의", "", ""] ∧
    (csvRow (memberCsvFields memC4)).data.count '\n' = 2 := by
  decide

theorem data_mk (l : List Char) : (String.mk l).data = l := rfl

/-- A leading `%` matches at every suffix of the subject. -/
theorem likeMatch_pct (ps s : List Char) :
    likeMatch ('%' :: ps) s = s.tails.any (fun t => likeMatch ps t) := by
  simp [likeMatch]

/-- A lone `%` matches everything. -/
theorem likeMatch_pct_true (s : List Char) : likeMatch ['%'] s = true := by
  rw [likeMatch_pct, List.any_eq_true]
  exact ⟨[], (List.mem_tails _ _).mpr List.nil_suffix, rfl⟩

/-- A wildcard-free block at the head of a pattern must match literally:
it is consumed as a prefix of the subject. -/
theorem likeMatch_lit_append (q ps : List Char)
    (hq : ∀ c ∈ q, ¬(c = '%') ∧ ¬(c = '_')) :
    ∀ t, likeMatch (q ++ ps) t = (q.isPrefixOf t && likeMatch ps (t.drop q.length)) := by
  induction q with
  | nil => intro t; simp [List.isPrefixOf]
  | cons c q ih =>
    have hc := hq c (List.mem_cons_self c q)
    have hq' : ∀ x ∈ q, ¬(x = '%') ∧ ¬(x = '_') :=
      fun x hx => hq x (List.mem_cons_of_mem c hx)
    intro t
    cases t with
    | nil => simp [likeMatch, hc.1, hc.2, List.isPrefixOf]
    | cons c' t' =>
      simp only [List.cons_append, likeMatch, if_neg hc.1, if_neg hc.2,
        List.isPrefixOf, List.append_eq, List.length_cons, List.drop_succ_cons,
        ih hq' t', Bool.and_assoc]

/-- For a valid codepoint below the surrogate range, `Char.ofNat` holds
exactly that codepoint. -/
theorem charOfNat_toNat (n : Nat) (h : n < 0xd800) : (Char.ofNat n).toNat = n := by
  have hv : n.isValidChar := Or.inl h
  simp [Char.ofNat, Char.toNat, hv, Char.ofNatAux, UInt32.toNat, BitVec.toNat_ofNatLt]

/-- ASCII case folding never produces a LIKE wildcard from a
non-wildcard character: folding maps A–Z into a–z and fixes the rest. -/
theorem lowerChar_ne_wildcard (c : Char) (h1 : ¬(c = '%')) (h2 : ¬(c = '_')) :
    ¬(lowerChar c = '%') ∧ ¬(lowerChar c = '_') := by
  unfold lowerChar
  split
  case isTrue h =>
    have hA : 65 ≤ c.toNat := by
      simpa [Char.le_def, Char.toNat, UInt32.le_def, BitVec.le_def] using h.1
    have hZ : c.toNat ≤ 90 := by
      simpa [Char.le_def, Char.toNat, UInt32.le_def, BitVec.le_def] using h.2
    have htn : (Char.ofNat (c.toNat + 32)).toNat = c.toNat + 32 :=
      charOfNat_toNat _ (by omega)
    constructor <;> intro hEq
    · have h37 := congrArg Char.toNat hEq
      rw [htn, show Char.toNat '%' = 37 from rfl] at h37
      omega
    · have h95 := congrArg Char.toNat hEq
      rw [htn, show Char.toNat '_' = 95 from rfl] at h95
      omega
  case isFalse h => exact ⟨h1, h2⟩

/-- For a wildcard-free query, `ilike` against `%q%` is exactly
case-insensitive substring containment. -/
theorem ilike_eq_containsCI (q f : String) (hq : noWildcards q = true) :
    ilike (some f) ("%" ++ q ++ "%") = containsCI q f := by
  have hq' : ∀ c ∈ (lowerStr q).data, ¬(c = '%') ∧ ¬(c = '_') := by
    intro c hc
    simp only [lowerStr, data_mk, List.mem_map] at hc
    obtain ⟨c0, hc0, rfl⟩ := hc
    have h2 := List.all_eq_true.mp hq c0 hc0
    simp only [Bool.and_eq_true, Bool.not_eq_eq_eq_not, Bool.not_true, beq_eq_false_iff_ne,
      ne_eq] at h2
    exact lowerChar_ne_wildcard c0 h2.1 h2.2
  show likeMatch (lowerStr ("%" ++ q ++ "%")).data (lowerStr f).data
      = containsSub (lowerStr q).data (lowerStr f).data
  have hdata : (lowerStr ("%" ++ q ++ "%")).data = '%' :: ((lowerStr q).data ++ ['%']) := by
    simp [lowerStr, String.data_append, data_mk, show lowerChar '%' = '%' from by decide]
  rw [hdata, likeMatch_pct]
  unfold containsSub
  congr 1
  funext t
  rw [likeMatch_lit_append _ _ hq' t, likeMatch_pct_true, Bool.and_true]

/-- Claim C8 counterexample: the query "_" keeps a member none of whose
fields contains "_" as a substring — LIKE treats `_` as a wildcard. -/
theorem c8_text_query_counterexample :
    stripOpt (some "_") ≠ "" ∧
    apply_filters { q := some "_" } 0 [memC8] = [memC8] ∧
    containsCI "_" memC8.name = false ∧
    optContainsCI "_" memC8.contact = false ∧
    optContainsCI "_" memC8.source = false ∧
    optContainsCI "_" memC8.note = false := by
  decide

/-- Claim C8 (amended): for a non-blank text query free of the SQL LIKE
wildcards `%` and `_`, the filter keeps a member iff at least one of
name, contact, source, note contains the query as a case-insensitive
(ASCII folding) substring, composed by AND with the other criteria; a
query containing a wildcard is instead interpreted by LIKE-pattern rules. -/
theorem c8_text_query_amended (args : FilterArgs) (today : Int) (m : Member)
    (h1 : stripOpt args.q ≠ "") (h2 : noWildcards (stripOpt args.q) = true) :
    memberMatches args today m = true ↔
      ((containsCI (stripOpt args.q) m.name
          || optContainsCI (stripOpt args.q) m.contact
          || optContainsCI (stripOpt args.q) m.source
          || optContainsCI (stripOpt args.q) m.note) = true ∧
        memberMatches { args with q := none } today m = true) := by
  have hopt : ∀ o : Option String,
      ilike o ("%" ++ stripOpt args.q ++ "%") = optContainsCI (stripOpt args.q) o := by
    intro o
    cases o with
    | none => rfl
    | some t => exact ilike_eq_containsCI _ _ h2
  simp only [memberMatches, matchesQ, textMatches, hopt, Bool.and_eq_true,
    Bool.or_eq_true, beq_iff_eq]
  simp only [show optContainsCI (stripOpt args.q) (some m.name)
      = containsCI (stripOpt args.q) m.name from rfl]
  simp [h1, show strip "" = "" from rfl, stripOpt]
  tauto

/-- Witness for C8's amended theorem: query "an" against the member named
"Han". -/
theorem c8_text_query_amended_witness :
    stripOpt ({ q := some "an" } : FilterArgs).q ≠ "" ∧
    noWildcards (stripOpt ({ q := some "an" } : FilterArgs).q) = true ∧
    (memberMatches { q := some "an" } 0 memC8 = true ↔
      ((containsCI (stripOpt ({ q := some "an" } : FilterArgs).q) memC8.name
          || optContainsCI (stripOpt ({ q := some "an" } : FilterArgs).q) memC8.contact
          || optContainsCI (stripOpt ({ q := some "an" } : FilterArgs).q) memC8.source
          || optContainsCI (stripOpt ({ q := some "an" } : FilterArgs).q) memC8.note) = true ∧
        memberMatches { ({ q := some "an" } : FilterArgs) with q := none } 0 memC8 = true)) :=
  ⟨by decide, by decide, c8_text_query_amended { q := some "an" } 0 memC8 (by decide) (by decide)⟩

/-- Claim C10: the listing and the export apply the identical filter
predicate — their outputs are permutations of each other, both are
characterized by membership in the store plus the shared predicate — and
the listing is ordered descending by id while the export is ascending. -/
theorem c10_listing_export_agree (store : List Member) (args : FilterArgs) (today : Int) :
    (index_members store args today).Perm (export_members store args today) ∧
    (∀ m, m ∈ index_members store args today ↔
      (m ∈ store ∧ memberMatches args today m = true)) ∧
    (∀ m, m ∈ export_members store args today ↔
      (m ∈ store ∧ memberMatches args today m = true)) ∧
    (index_members store args today).Sorted (fun a b => b.id ≤ a.id) ∧
    (export_members store args today).Sorted (fun a b => a.id ≤ b.id) := by
  have pd : (store.mergeSort idDesc).Perm store := List.mergeSort_perm store idDesc
  have pa : (store.mergeSort idAsc).Perm store := List.mergeSort_perm store idAsc
  refine ⟨?_, ?_, ?_, ?_, ?_⟩
  · exact (pd.filter _).trans (pa.filter _).symm
  · intro m
    unfold index_members
    rw [List.mem_filter]
    exact and_congr_left fun _ => pd.mem_iff
  · intro m
    unfold export_members
    rw [List.mem_filter]
    exact and_congr_left fun _ => pa.mem_iff
  · have tr : ∀ a b c : Member, idDesc a b = true → idDesc b c = true → idDesc a c = true := by
      intro a b c h1 h2
      simp only [idDesc, decide_eq_true_eq] at h1 h2 ⊢
      omega
    have tot : ∀ a b : Member, (idDesc a b || idDesc b a) = true := by
      intro a b
      simp only [idDesc, Bool.or_eq_true, decide_eq_true_eq]
      omega
    have hp := @List.sorted_mergeSort Member idDesc tr tot store
    exact (hp.filter _).imp fun h => of_decide_eq_true h
  · have tr : ∀ a b c : Member, idAsc a b = true → idAsc b c = true → idAsc a c = true := by
      intro a b c h1 h2
      simp only [idAsc, decide_eq_true_eq] at h1 h2 ⊢
      omega
    have tot : ∀ a b : Member, (idAsc a b || idAsc b a) = true := by
      intro a b
      simp only [idAsc, Bool.or_eq_true, decide_eq_true_eq]
      omega
    have hp := @List.sorted_mergeSort Member idAsc tr tot store
    exact (hp.filter _).imp fun h => of_decide_eq_true h

/-- Witness for C10 on a concrete two-member store. -/
theorem c10_listing_export_agree_witness :
    (index_members [memA, memB] { } 0).Perm (export_members [memA, memB] { } 0) :=
  (c10_listing_export_agree [memA, memB] { } 0).1

end MemberApp
